import Mathlib

/-!
Verification of the date-range logic in
`src/app/insights/FinancialReports/components/DateSelector.tsx`.

Dates are modelled as civil calendar dates: a year, a 0-based month index
(as in JavaScript `Date`), and a 1-based day of month.  Time-of-day is
omitted: every date the component stores in `periodStart` is normalized to
midnight on the first day of some month, and `periodEnd` is either an
end-of-month boundary or the current moment, so each comparison the
component performs is decided by the (year, month, day) triple alone.

The date-fns helpers used by the component (`startOfMonth`, `endOfMonth`,
`addMonths`, `subMonths`, `startOfQuarter`, `endOfQuarter`, `startOfYear`,
`endOfYear`, `differenceInCalendarMonths`, `differenceInMonths`,
`compareAsc`, `isLastDayOfMonth`) are embedded from the date-fns v2
sources, including the JavaScript `setDate` / `setMonth` day-overflow
normalization that `differenceInMonths` relies on.
-/

/-- A civil calendar date: year, 0-based month (January = 0), 1-based day. -/
structure CivilDate where
  year : Int
  month : Nat
  day : Nat
deriving DecidableEq, Repr

/-- Linear month index: `year * 12 + month`.  Two JavaScript dates compare
in timestamp order iff their (month index, day) pairs compare
lexicographically, given the time-of-day normalization described above. -/
def monthIdx (d : CivilDate) : Int := d.year * 12 + d.month

/-- Build the date with the given linear month index (normalizing the month
into the year with floor division, as JavaScript `Date` does) and day. -/
def dateOfMonthIdx (t : Int) (day : Nat) : CivilDate :=
  ⟨t / 12, (t % 12).toNat, day⟩

/-- Gregorian leap-year rule, as used by JavaScript `Date`. -/
def isLeapYear (y : Int) : Bool :=
  (y % 4 == 0 && y % 100 != 0) || y % 400 == 0

/-- Number of days in the given 0-based month of the given year. -/
def daysInMonth (y : Int) (m : Nat) : Nat :=
  match m with
  | 0 => 31
  | 1 => if isLeapYear y then 29 else 28
  | 2 => 31
  | 3 => 30
  | 4 => 31
  | 5 => 30
  | 6 => 31
  | 7 => 31
  | 8 => 30
  | 9 => 31
  | 10 => 30
  | _ => 31

/-- A structurally valid calendar date (what every JavaScript `Date` is). -/
def ValidDate (d : CivilDate) : Prop :=
  d.month < 12 ∧ 1 ≤ d.day ∧ d.day ≤ daysInMonth d.year d.month

instance (d : CivilDate) : Decidable (ValidDate d) := by
  unfold ValidDate; infer_instance

/-- date-fns `startOfMonth`: first day of the date's month. -/
def startOfMonth (d : CivilDate) : CivilDate := ⟨d.year, d.month, 1⟩

/-- date-fns `endOfMonth`: last day of the date's month. -/
def endOfMonth (d : CivilDate) : CivilDate :=
  ⟨d.year, d.month, daysInMonth d.year d.month⟩

/-- date-fns `addMonths`: shift the month by `n`, clamping the day of month
to the length of the target month (date-fns clamps rather than letting the
day overflow). -/
def addMonths (d : CivilDate) (n : Int) : CivilDate :=
  let t := monthIdx d + n
  let y := t / 12
  let m := (t % 12).toNat
  ⟨y, m, min d.day (daysInMonth y m)⟩

/-- date-fns `subMonths`, defined as `addMonths` with the negated amount. -/
def subMonths (d : CivilDate) (n : Int) : CivilDate := addMonths d (-n)

/-- date-fns `startOfQuarter`: first day of the date's calendar quarter. -/
def startOfQuarter (d : CivilDate) : CivilDate :=
  ⟨d.year, d.month / 3 * 3, 1⟩

/-- date-fns `endOfQuarter`: last day of the date's calendar quarter. -/
def endOfQuarter (d : CivilDate) : CivilDate :=
  ⟨d.year, d.month / 3 * 3 + 2, daysInMonth d.year (d.month / 3 * 3 + 2)⟩

/-- date-fns `startOfYear`: January 1 of the date's year. -/
def startOfYear (d : CivilDate) : CivilDate := ⟨d.year, 0, 1⟩

/-- date-fns `endOfYear`: December 31 of the date's year. -/
def endOfYear (d : CivilDate) : CivilDate := ⟨d.year, 11, 31⟩

/-- date-fns `compareAsc`: -1, 0 or 1 according to timestamp order. -/
def compareAsc (a b : CivilDate) : Int :=
  if monthIdx a < monthIdx b then -1
  else if monthIdx b < monthIdx a then 1
  else if a.day < b.day then -1
  else if b.day < a.day then 1
  else 0

/-- JavaScript `<` on two `Date` values (timestamp comparison). -/
def dateLtB (a b : CivilDate) : Bool := compareAsc a b == -1

/-- Timestamp order as a proposition, for stating range invariants. -/
def dateLePr (a b : CivilDate) : Prop :=
  monthIdx a < monthIdx b ∨ (monthIdx a = monthIdx b ∧ a.day ≤ b.day)

instance (a b : CivilDate) : Decidable (dateLePr a b) := by
  unfold dateLePr; infer_instance

/-- date-fns `isLastDayOfMonth`. -/
def isLastDayOfMonth (d : CivilDate) : Bool :=
  d.day == daysInMonth d.year d.month

/-- JavaScript `Date.prototype.setDate`: set the day of month, letting a
too-large day overflow into the following month.  (Only called with day
values up to 31, for which a single-month overflow step is exact.) -/
def jsSetDate (d : CivilDate) (n : Nat) : CivilDate :=
  if n ≤ daysInMonth d.year d.month then ⟨d.year, d.month, n⟩
  else dateOfMonthIdx (monthIdx d + 1) (n - daysInMonth d.year d.month)

/-- JavaScript `Date.prototype.setMonth`: set the (possibly out-of-range)
month, normalizing it into the year, keeping the day of month and letting a
too-large day overflow into the following month.  (Only called with day
values up to 31, for which a single-month overflow step is exact.) -/
def jsSetMonth (d : CivilDate) (m : Int) : CivilDate :=
  let t := d.year * 12 + m
  let y := t / 12
  let mm := (t % 12).toNat
  if d.day ≤ daysInMonth y mm then ⟨y, mm, d.day⟩
  else dateOfMonthIdx (t + 1) (d.day - daysInMonth y mm)

/-- JavaScript `new Date(year, month, 1)` with an arbitrary month index. -/
def jsNewDateFirst (year : Int) (month : Nat) : CivilDate :=
  dateOfMonthIdx (year * 12 + month) 1

/-- date-fns `differenceInCalendarMonths`. -/
def differenceInCalendarMonths (a b : CivilDate) : Int :=
  (a.year - b.year) * 12 + ((a.month : Int) - (b.month : Int))

/-- date-fns v2 `differenceInMonths`: the number of full months between two
dates, including the end-of-February adjustment and the mutation of the
left date via `setDate` / `setMonth`. -/
def differenceInMonths (l r : CivilDate) : Int :=
  let sign := compareAsc l r
  let difference := (differenceInCalendarMonths l r).natAbs
  if difference < 1 then 0
  else
    let l1 := if l.month = 1 ∧ 27 < l.day then jsSetDate l 30 else l
    let l2 := jsSetMonth l1 ((l1.month : Int) - sign * (difference : Int))
    let notFull0 : Bool := decide (compareAsc l2 r = -sign)
    let notFull : Bool :=
      if isLastDayOfMonth l = true ∧ difference = 1 ∧ compareAsc l r = 1 then
        false
      else notFull0
    sign * ((difference : Int) - (if notFull then 1 else 0))

/-- Comparison / breakdown options, `interface CompareOptions`. -/
structure CompareOptions where
  toPreviousPeriod : Bool
  toPreviousYear : Bool
  toFinancialYearToDate : Bool
  byCompany : Bool
  byCategoryClassLocation : Bool
  periodsToCompare : Int
deriving DecidableEq, Repr

/-- Initial value of the `compareOptions` state. -/
def initialCompareOptions : CompareOptions :=
  { toPreviousPeriod := false
    toPreviousYear := false
    toFinancialYearToDate := false
    byCompany := false
    byCategoryClassLocation := false
    periodsToCompare := 4 }

/-- One entry of the static preset catalog `commonFormats`. -/
structure FormatEntry where
  label : String
  category : String
deriving DecidableEq, Repr

/-- The static preset catalog `commonFormats`. -/
def commonFormats : List FormatEntry :=
  [⟨"Current and previous 3 months", "Multi-period"⟩,
   ⟨"This month", "Current"⟩,
   ⟨"This month by company", "Current"⟩,
   ⟨"This calendar quarter", "Current"⟩,
   ⟨"This calendar quarter to date", "Current"⟩,
   ⟨"This calendar year", "Current"⟩,
   ⟨"This calendar year by month", "Current"⟩,
   ⟨"This calendar year by company", "Current"⟩,
   ⟨"This calendar year by quarter", "Current"⟩,
   ⟨"Calendar quarter to date by month", "Multi-period"⟩,
   ⟨"Calendar year to last month", "Multi-period"⟩,
   ⟨"Calendar year to last month by month", "Multi-period"⟩]

/-- The component's tab state, `'presets' | 'custom' | 'compare'`. -/
inductive Tab where
  | presets
  | custom
  | compareTab
deriving DecidableEq, Repr

/-- The component's local state: the `useState` hooks of `DateSelector`. -/
structure DSState where
  isOpen : Bool
  searchTerm : String
  selectedFormat : Option String
  activeTab : Tab
  periodStart : CivilDate
  periodEnd : CivilDate
  periodDuration : String
  startYear : Int
  endYear : Int
  compareOptions : CompareOptions
deriving DecidableEq, Repr

/-- The initial state of the component when first rendered at moment `now`
(lines 56-68 of the source). -/
def initialState (now : CivilDate) : DSState :=
  { isOpen := false
    searchTerm := ""
    selectedFormat := none
    activeTab := Tab.presets
    periodStart := startOfMonth now
    periodEnd := endOfMonth now
    periodDuration := "1 month"
    startYear := now.year
    endYear := now.year
    compareOptions := initialCompareOptions }

/-- Events emitted through the two callback props. -/
inductive Emitted where
  | dateRangeChange (fromDate toDate : CivilDate)
  | compareChange (options : CompareOptions)
deriving DecidableEq, Repr

/-- `handlePeriodDurationChange`: record the new duration class and reset
the period to the default trailing window anchored at `now` (a TypeScript
`switch` on the duration string, with a this-month default). -/
def handlePeriodDurationChange (now : CivilDate) (duration : String)
    (s : DSState) : DSState :=
  let p : CivilDate × CivilDate :=
    if duration = "1 month" then (startOfMonth now, endOfMonth now)
    else if duration = "3 months" then
      (startOfMonth (subMonths now 2), endOfMonth now)
    else if duration = "6 months" then
      (startOfMonth (subMonths now 5), endOfMonth now)
    else if duration = "1 year" then
      (startOfMonth (subMonths now 11), endOfMonth now)
    else (startOfMonth now, endOfMonth now)
  { s with
      periodDuration := duration
      periodStart := p.1
      periodEnd := p.2 }

/-- `handleFormatSelect`: record the selected preset label and resolve it to
a `{from, to}` pair anchored at `now` (a TypeScript `switch` on the label,
with a this-month default). -/
def handleFormatSelect (now : CivilDate) (fmt : String) (s : DSState) :
    DSState :=
  let p : CivilDate × CivilDate :=
    if fmt = "Current and previous 3 months" then
      (startOfMonth (subMonths now 3), endOfMonth now)
    else if fmt = "This month" then (startOfMonth now, endOfMonth now)
    else if fmt = "This calendar quarter" then
      (startOfQuarter now, endOfQuarter now)
    else if fmt = "This calendar quarter to date" then
      (startOfQuarter now, now)
    else if fmt = "This calendar year" then (startOfYear now, endOfYear now)
    else if fmt = "This calendar year by month" then
      (startOfYear now, endOfYear now)
    else if fmt = "Calendar year to last month" then
      (startOfYear now, endOfMonth (subMonths now 1))
    else (startOfMonth now, endOfMonth now)
  { s with
      selectedFormat := some fmt
      periodStart := p.1
      periodEnd := p.2 }

/-- A single edit to one field of `CompareOptions`: the
`(option: keyof CompareOptions, value: boolean | number)` argument pair of
`handleCompareOptionChange`. -/
inductive CompareEdit where
  | setToPreviousPeriod (b : Bool)
  | setToPreviousYear (b : Bool)
  | setToFinancialYearToDate (b : Bool)
  | setByCompany (b : Bool)
  | setByCategoryClassLocation (b : Bool)
  | setPeriodsToCompare (n : Int)
deriving DecidableEq, Repr

/-- The record spread `{ ...compareOptions, [option]: value }`. -/
def applyCompareEdit (o : CompareOptions) : CompareEdit → CompareOptions
  | CompareEdit.setToPreviousPeriod b => { o with toPreviousPeriod := b }
  | CompareEdit.setToPreviousYear b => { o with toPreviousYear := b }
  | CompareEdit.setToFinancialYearToDate b =>
      { o with toFinancialYearToDate := b }
  | CompareEdit.setByCompany b => { o with byCompany := b }
  | CompareEdit.setByCategoryClassLocation b =>
      { o with byCategoryClassLocation := b }
  | CompareEdit.setPeriodsToCompare n => { o with periodsToCompare := n }

/-- `handleCompareOptionChange`: update one field and immediately emit the
full updated record through `onCompareChange`. -/
def handleCompareOptionChange (e : CompareEdit) (s : DSState) :
    DSState × List Emitted :=
  let newOptions := applyCompareEdit s.compareOptions e
  ({ s with compareOptions := newOptions },
   [Emitted.compareChange newOptions])

/-- `dateRangeValidation`: pure function of the period boundaries and the
duration class (the `useMemo` body, lines 170-203 of the source). -/
structure ValidationResult where
  isValid : Bool
  message : String
deriving DecidableEq, Repr

/-- The validator body: whole-month difference between end and start,
compared with the duration class's required minimum. -/
def dateRangeValidation (periodStart periodEnd : CivilDate)
    (periodDuration : String) : ValidationResult :=
  let monthsDifference := differenceInMonths periodEnd periodStart
  let requiredMonths : Int :=
    if periodDuration = "1 month" then 0
    else if periodDuration = "3 months" then 2
    else if periodDuration = "6 months" then 5
    else if periodDuration = "1 year" then 11
    else 0
  if monthsDifference < requiredMonths then
    { isValid := false
      message := "Selected date range is too short. " ++ periodDuration ++
        " view requires at least " ++ periodDuration.toLower ++ " of data." }
  else
    { isValid := true, message := "" }

/-- `handleApplyChanges`: when the current validation result is valid, emit
the current range through `onDateRangeChange` and close the panel;
otherwise do nothing. -/
def handleApplyChanges (s : DSState) : DSState × List Emitted :=
  if (dateRangeValidation s.periodStart s.periodEnd s.periodDuration).isValid
  then ({ s with isOpen := false },
        [Emitted.dateRangeChange s.periodStart s.periodEnd])
  else (s, [])

/-- `handleCancel`: close the panel, emitting nothing. -/
def handleCancel (s : DSState) : DSState × List Emitted :=
  ({ s with isOpen := false }, [])

/-- Composition the claims about the duration switcher use: switch the
duration class, then read the validator on the resulting state (the
component recomputes `dateRangeValidation` from the updated state). -/
def validationAfterDurationChange (now : CivilDate) (duration : String)
    (s : DSState) : ValidationResult :=
  let s1 := handlePeriodDurationChange now duration s
  dateRangeValidation s1.periodStart s1.periodEnd s1.periodDuration

/-- `handleMonthYearSelect`: set one boundary of the custom range to the
chosen month/year (start normalized to the first day, end to the last day),
and if the boundaries now cross, pull the other boundary to the same
month. -/
def handleMonthYearSelect (month : Nat) (year : Int) (isStart : Bool)
    (s : DSState) : DSState :=
  let newDate := jsNewDateFirst year month
  if isStart then
    let startDate := startOfMonth newDate
    let s1 := { s with periodStart := startDate }
    if dateLtB s.periodEnd startDate then
      { s1 with periodEnd := endOfMonth startDate, endYear := year }
    else s1
  else
    let endDate := endOfMonth newDate
    let s1 := { s with periodEnd := endDate }
    if dateLtB endDate s.periodStart then
      { s1 with periodStart := startOfMonth endDate, startYear := year }
    else s1

/-! ### Basic lemmas about the date model -/

theorem daysInMonth_ge_28 (y : Int) (m : Nat) : 28 ≤ daysInMonth y m := by
  unfold daysInMonth
  split <;> first | omega | (split <;> omega)

theorem monthIdx_dateOfMonthIdx (t : Int) (d : Nat) :
    monthIdx (dateOfMonthIdx t d) = t := by
  simp only [monthIdx, dateOfMonthIdx]
  omega

theorem month_dateOfMonthIdx_lt (t : Int) (d : Nat) :
    (dateOfMonthIdx t d).month < 12 := by
  simp only [dateOfMonthIdx]
  omega

theorem dateOfMonthIdx_eq (y : Int) (m d : Nat) (hm : m < 12) :
    dateOfMonthIdx (y * 12 + m) d = ⟨y, m, d⟩ := by
  simp only [dateOfMonthIdx, CivilDate.mk.injEq]
  refine ⟨by omega, by omega, trivial⟩

theorem monthIdx_addMonths (d : CivilDate) (n : Int) :
    monthIdx (addMonths d n) = monthIdx d + n := by
  simp only [addMonths, monthIdx]
  omega

theorem monthIdx_subMonths (d : CivilDate) (n : Int) :
    monthIdx (subMonths d n) = monthIdx d - n := by
  simp only [subMonths, monthIdx_addMonths]
  ring

theorem monthIdx_startOfMonth (d : CivilDate) :
    monthIdx (startOfMonth d) = monthIdx d := rfl

theorem monthIdx_endOfMonth (d : CivilDate) :
    monthIdx (endOfMonth d) = monthIdx d := rfl

theorem day_startOfMonth (d : CivilDate) : (startOfMonth d).day = 1 := rfl

theorem day_endOfMonth (d : CivilDate) :
    (endOfMonth d).day = daysInMonth d.year d.month := rfl

theorem monthIdx_jsNewDateFirst (y : Int) (m : Nat) :
    monthIdx (jsNewDateFirst y m) = y * 12 + m :=
  monthIdx_dateOfMonthIdx _ _

theorem compareAsc_eq_one (a b : CivilDate) (h : monthIdx b < monthIdx a) :
    compareAsc a b = 1 := by
  unfold compareAsc
  rw [if_neg (by omega), if_pos h]

theorem compareAsc_ne_negOne (a b : CivilDate)
    (h1 : monthIdx b ≤ monthIdx a)
    (h2 : monthIdx a = monthIdx b → b.day ≤ a.day) :
    ¬ compareAsc a b = -1 := by
  unfold compareAsc
  by_cases hq : monthIdx a = monthIdx b
  · have := h2 hq
    split_ifs <;> simp <;> omega
  · split_ifs <;> simp <;> omega

theorem dateLtB_true_of_lt (a b : CivilDate) (h : monthIdx a < monthIdx b) :
    dateLtB a b = true := by
  unfold dateLtB compareAsc
  rw [if_pos h]
  rfl

theorem dateLtB_false_of (a b : CivilDate)
    (h1 : monthIdx b ≤ monthIdx a)
    (h2 : monthIdx a = monthIdx b → b.day ≤ a.day) :
    dateLtB a b = false := by
  unfold dateLtB
  exact beq_eq_false_iff_ne.mpr (compareAsc_ne_negOne a b h1 h2)

theorem dateLePr_of_not_lt (a b : CivilDate) (h : dateLtB b a = false) :
    dateLePr a b := by
  unfold dateLtB compareAsc at h
  unfold dateLePr
  split_ifs at h <;> simp_all <;> omega

/-! ### Claim theorems -/

/-- C10: the Cancel operation closes the panel without emitting anything
through either callback, and leaves every other piece of component state
(periodStart, periodEnd, periodDuration, selectedFormat, compareOptions,
search text, active tab, year cursors) unchanged. -/
theorem cancel_closes_and_preserves (s : DSState) :
    (handleCancel s).2 = [] ∧
    (handleCancel s).1.isOpen = false ∧
    (handleCancel s).1.searchTerm = s.searchTerm ∧
    (handleCancel s).1.selectedFormat = s.selectedFormat ∧
    (handleCancel s).1.activeTab = s.activeTab ∧
    (handleCancel s).1.periodStart = s.periodStart ∧
    (handleCancel s).1.periodEnd = s.periodEnd ∧
    (handleCancel s).1.periodDuration = s.periodDuration ∧
    (handleCancel s).1.startYear = s.startYear ∧
    (handleCancel s).1.endYear = s.endYear ∧
    (handleCancel s).1.compareOptions = s.compareOptions :=
  ⟨rfl, rfl, rfl, rfl, rfl, rfl, rfl, rfl, rfl, rfl, rfl⟩

/-- C6: every single edit of one comparison option emits the complete
updated record through `onCompareChange` exactly once (not gated by
Apply), the updated record differs from the prior one in only the edited
field, and toggling `byCompany` from the initial defaults yields the
record with all other fields at their defaults. -/
theorem compare_edit_emits_once (s : DSState) (e : CompareEdit) :
    handleCompareOptionChange e s =
      ({ s with compareOptions := applyCompareEdit s.compareOptions e },
       [Emitted.compareChange (applyCompareEdit s.compareOptions e)]) ∧
    (∀ (o : CompareOptions) (b : Bool),
      applyCompareEdit o (CompareEdit.setToPreviousPeriod b) =
        ⟨b, o.toPreviousYear, o.toFinancialYearToDate, o.byCompany,
         o.byCategoryClassLocation, o.periodsToCompare⟩) ∧
    (∀ (o : CompareOptions) (b : Bool),
      applyCompareEdit o (CompareEdit.setToPreviousYear b) =
        ⟨o.toPreviousPeriod, b, o.toFinancialYearToDate, o.byCompany,
         o.byCategoryClassLocation, o.periodsToCompare⟩) ∧
    (∀ (o : CompareOptions) (b : Bool),
      applyCompareEdit o (CompareEdit.setToFinancialYearToDate b) =
        ⟨o.toPreviousPeriod, o.toPreviousYear, b, o.byCompany,
         o.byCategoryClassLocation, o.periodsToCompare⟩) ∧
    (∀ (o : CompareOptions) (b : Bool),
      applyCompareEdit o (CompareEdit.setByCompany b) =
        ⟨o.toPreviousPeriod, o.toPreviousYear, o.toFinancialYearToDate, b,
         o.byCategoryClassLocation, o.periodsToCompare⟩) ∧
    (∀ (o : CompareOptions) (b : Bool),
      applyCompareEdit o (CompareEdit.setByCategoryClassLocation b) =
        ⟨o.toPreviousPeriod, o.toPreviousYear, o.toFinancialYearToDate,
         o.byCompany, b, o.periodsToCompare⟩) ∧
    (∀ (o : CompareOptions) (n : Int),
      applyCompareEdit o (CompareEdit.setPeriodsToCompare n) =
        ⟨o.toPreviousPeriod, o.toPreviousYear, o.toFinancialYearToDate,
         o.byCompany, o.byCategoryClassLocation, n⟩) ∧
    applyCompareEdit initialCompareOptions (CompareEdit.setByCompany true) =
      ⟨false, false, false, true, false, 4⟩ :=
  ⟨rfl, fun _ _ => rfl, fun _ _ => rfl, fun _ _ => rfl, fun _ _ => rfl,
   fun _ _ => rfl, fun _ _ => rfl, rfl⟩

/-- C5: Apply emits the current range through `onDateRangeChange` exactly
once and closes the panel when the validator's current result is valid;
when it is invalid, Apply emits nothing and leaves the whole state (panel
open/closed included) unchanged. -/
theorem apply_gated_by_validation (s : DSState) :
    ((dateRangeValidation s.periodStart s.periodEnd
        s.periodDuration).isValid = true →
      handleApplyChanges s =
        ({ s with isOpen := false },
         [Emitted.dateRangeChange s.periodStart s.periodEnd])) ∧
    ((dateRangeValidation s.periodStart s.periodEnd
        s.periodDuration).isValid = false →
      handleApplyChanges s = (s, [])) := by
  constructor
  · intro h
    simp only [handleApplyChanges, h, if_true]
  · intro h
    simp only [handleApplyChanges, h, Bool.false_eq_true, if_false]

/-- Closed instance of `apply_gated_by_validation`: with the initial state
at 2024-05-15 (duration class "1 month", range the current month) Apply
emits the range once and closes the panel; with the duration class forced
to "1 year" on the same one-month range Apply emits nothing and changes
nothing. -/
theorem apply_gated_by_validation_witness :
    handleApplyChanges (initialState ⟨2024, 4, 15⟩) =
      ({ initialState ⟨2024, 4, 15⟩ with isOpen := false },
       [Emitted.dateRangeChange ⟨2024, 4, 1⟩ ⟨2024, 4, 31⟩]) ∧
    handleApplyChanges
        { initialState ⟨2024, 4, 15⟩ with periodDuration := "1 year" } =
      ({ initialState ⟨2024, 4, 15⟩ with periodDuration := "1 year" },
       []) := by
  constructor
  · have h := (apply_gated_by_validation (initialState ⟨2024, 4, 15⟩)).1
      (by decide)
    rw [h]
    decide
  · exact (apply_gated_by_validation _).2 (by decide)

/-- C9: the catalog labels "This month by company", "This calendar year by
company", "This calendar year by quarter", "Calendar quarter to date by
month" and "Calendar year to last month by month" are present in the
preset catalog but have no dedicated rule in the resolver, so selecting
any of them resolves to the default current-month range (first through
last day of the current month), exactly like an unrecognized label. -/
theorem catalog_labels_without_rule (now : CivilDate) (s : DSState) :
    ("This month by company" ∈ commonFormats.map FormatEntry.label ∧
      (handleFormatSelect now "This month by company" s).periodStart =
        ⟨now.year, now.month, 1⟩ ∧
      (handleFormatSelect now "This month by company" s).periodEnd =
        ⟨now.year, now.month, daysInMonth now.year now.month⟩) ∧
    ("This calendar year by company" ∈ commonFormats.map FormatEntry.label ∧
      (handleFormatSelect now "This calendar year by company" s).periodStart =
        ⟨now.year, now.month, 1⟩ ∧
      (handleFormatSelect now "This calendar year by company" s).periodEnd =
        ⟨now.year, now.month, daysInMonth now.year now.month⟩) ∧
    ("This calendar year by quarter" ∈ commonFormats.map FormatEntry.label ∧
      (handleFormatSelect now "This calendar year by quarter" s).periodStart =
        ⟨now.year, now.month, 1⟩ ∧
      (handleFormatSelect now "This calendar year by quarter" s).periodEnd =
        ⟨now.year, now.month, daysInMonth now.year now.month⟩) ∧
    ("Calendar quarter to date by month" ∈ commonFormats.map FormatEntry.label ∧
      (handleFormatSelect now "Calendar quarter to date by month" s).periodStart =
        ⟨now.year, now.month, 1⟩ ∧
      (handleFormatSelect now "Calendar quarter to date by month" s).periodEnd =
        ⟨now.year, now.month, daysInMonth now.year now.month⟩) ∧
    ("Calendar year to last month by month" ∈ commonFormats.map FormatEntry.label ∧
      (handleFormatSelect now "Calendar year to last month by month" s).periodStart =
        ⟨now.year, now.month, 1⟩ ∧
      (handleFormatSelect now "Calendar year to last month by month" s).periodEnd =
        ⟨now.year, now.month, daysInMonth now.year now.month⟩) := by
  refine ⟨⟨by decide, ?_, ?_⟩, ⟨by decide, ?_, ?_⟩, ⟨by decide, ?_, ?_⟩,
    ⟨by decide, ?_, ?_⟩, ⟨by decide, ?_, ?_⟩⟩ <;>
    simp only [handleFormatSelect, String.reduceEq, reduceIte] <;> rfl

/-- C1: for every pair of dates and every duration class, the validator
compares the whole-month difference between periodEnd and periodStart
with the class's required minimum (1 month has minimum 0, 3 months 2,
6 months 5, 1 year 11): strictly smaller gives isValid = false with a
non-empty message that names the duration class, otherwise isValid = true
with the empty message. -/
theorem validator_threshold (ps pe : CivilDate) (dur : String) (req : Int)
    (hmem : (dur, req) ∈
      [("1 month", (0 : Int)), ("3 months", 2), ("6 months", 5),
       ("1 year", 11)]) :
    (differenceInMonths pe ps < req →
      (dateRangeValidation ps pe dur).isValid = false ∧
      (dateRangeValidation ps pe dur).message ≠ "" ∧
      ∃ a b : String, (dateRangeValidation ps pe dur).message = a ++ dur ++ b) ∧
    (req ≤ differenceInMonths pe ps →
      dateRangeValidation ps pe dur = { isValid := true, message := "" }) := by
  simp only [List.mem_cons, List.not_mem_nil, or_false, Prod.mk.injEq] at hmem
  rcases hmem with ⟨h1, h2⟩ | ⟨h1, h2⟩ | ⟨h1, h2⟩ | ⟨h1, h2⟩ <;>
      subst h1 <;> subst h2 <;>
      refine ⟨fun h => ?_, fun h => ?_⟩ <;>
      simp only [dateRangeValidation, String.reduceEq, reduceIte] <;>
      [rw [if_pos h]; rw [if_neg (by omega)]; rw [if_pos h];
       rw [if_neg (by omega)]; rw [if_pos h]; rw [if_neg (by omega)];
       rw [if_pos h]; rw [if_neg (by omega)]]
  case _ =>
    refine ⟨rfl, fun hc => ?_, "Selected date range is too short. ",
      " view requires at least " ++ String.toLower "1 month" ++ " of data.", ?_⟩
    · have hd := congrArg String.data hc
      simp at hd
    · apply congrArg String.mk
      simp
  case _ =>
    refine ⟨rfl, fun hc => ?_, "Selected date range is too short. ",
      " view requires at least " ++ String.toLower "3 months" ++ " of data.", ?_⟩
    · have hd := congrArg String.data hc
      simp at hd
    · apply congrArg String.mk
      simp
  case _ =>
    refine ⟨rfl, fun hc => ?_, "Selected date range is too short. ",
      " view requires at least " ++ String.toLower "6 months" ++ " of data.", ?_⟩
    · have hd := congrArg String.data hc
      simp at hd
    · apply congrArg String.mk
      simp
  case _ =>
    refine ⟨rfl, fun hc => ?_, "Selected date range is too short. ",
      " view requires at least " ++ String.toLower "1 year" ++ " of data.", ?_⟩
    · have hd := congrArg String.data hc
      simp at hd
    · apply congrArg String.mk
      simp

/-- Closed instance of `validator_threshold`: duration class "1 year" with
the range 2024-01-01 .. 2024-11-30 (exactly 10 whole months difference)
reports isValid = false with a message that contains "1 year". -/
theorem validator_threshold_witness :
    (dateRangeValidation ⟨2024, 0, 1⟩ ⟨2024, 10, 30⟩ "1 year").isValid = false ∧
    (dateRangeValidation ⟨2024, 0, 1⟩ ⟨2024, 10, 30⟩ "1 year").message ≠ "" ∧
    ∃ a b : String,
      (dateRangeValidation ⟨2024, 0, 1⟩ ⟨2024, 10, 30⟩ "1 year").message =
        a ++ "1 year" ++ b :=
  (validator_threshold ⟨2024, 0, 1⟩ ⟨2024, 10, 30⟩ "1 year" 11 (by decide)).1
    (by decide)

/-- Reduction of the duration switcher at class "1 month". -/
theorem hpdc_one_month (now : CivilDate) (s : DSState) :
    handlePeriodDurationChange now "1 month" s =
      { s with periodDuration := "1 month", periodStart := startOfMonth now,
               periodEnd := endOfMonth now } := by
  simp only [handlePeriodDurationChange, String.reduceEq, reduceIte]

/-- Reduction of the duration switcher at class "3 months". -/
theorem hpdc_three_months (now : CivilDate) (s : DSState) :
    handlePeriodDurationChange now "3 months" s =
      { s with periodDuration := "3 months",
               periodStart := startOfMonth (subMonths now 2),
               periodEnd := endOfMonth now } := by
  simp only [handlePeriodDurationChange, String.reduceEq, reduceIte]

/-- Reduction of the duration switcher at class "6 months". -/
theorem hpdc_six_months (now : CivilDate) (s : DSState) :
    handlePeriodDurationChange now "6 months" s =
      { s with periodDuration := "6 months",
               periodStart := startOfMonth (subMonths now 5),
               periodEnd := endOfMonth now } := by
  simp only [handlePeriodDurationChange, String.reduceEq, reduceIte]

/-- Reduction of the duration switcher at class "1 year". -/
theorem hpdc_one_year (now : CivilDate) (s : DSState) :
    handlePeriodDurationChange now "1 year" s =
      { s with periodDuration := "1 year",
               periodStart := startOfMonth (subMonths now 11),
               periodEnd := endOfMonth now } := by
  simp only [handlePeriodDurationChange, String.reduceEq, reduceIte]

/-- C4: switching the duration class records the new class and resets the
period to the trailing window of the last N full months ending at the
current month: the new start is the first day of the month N-1 months
before now and the new end is the last day of the current month,
independently of the previously selected range; with now = 2024-05-15,
class "6 months" yields 2023-12-01 .. 2024-05-31 (months 0-based). -/
theorem duration_switch_resets (now : CivilDate) (s : DSState) :
    ((handlePeriodDurationChange now "1 month" s).periodDuration = "1 month" ∧
      monthIdx (handlePeriodDurationChange now "1 month" s).periodStart =
        monthIdx now - 0 ∧
      (handlePeriodDurationChange now "1 month" s).periodStart.day = 1 ∧
      (handlePeriodDurationChange now "1 month" s).periodEnd =
        ⟨now.year, now.month, daysInMonth now.year now.month⟩) ∧
    ((handlePeriodDurationChange now "3 months" s).periodDuration = "3 months" ∧
      monthIdx (handlePeriodDurationChange now "3 months" s).periodStart =
        monthIdx now - 2 ∧
      (handlePeriodDurationChange now "3 months" s).periodStart.day = 1 ∧
      (handlePeriodDurationChange now "3 months" s).periodEnd =
        ⟨now.year, now.month, daysInMonth now.year now.month⟩) ∧
    ((handlePeriodDurationChange now "6 months" s).periodDuration = "6 months" ∧
      monthIdx (handlePeriodDurationChange now "6 months" s).periodStart =
        monthIdx now - 5 ∧
      (handlePeriodDurationChange now "6 months" s).periodStart.day = 1 ∧
      (handlePeriodDurationChange now "6 months" s).periodEnd =
        ⟨now.year, now.month, daysInMonth now.year now.month⟩) ∧
    ((handlePeriodDurationChange now "1 year" s).periodDuration = "1 year" ∧
      monthIdx (handlePeriodDurationChange now "1 year" s).periodStart =
        monthIdx now - 11 ∧
      (handlePeriodDurationChange now "1 year" s).periodStart.day = 1 ∧
      (handlePeriodDurationChange now "1 year" s).periodEnd =
        ⟨now.year, now.month, daysInMonth now.year now.month⟩) ∧
    ((handlePeriodDurationChange ⟨2024, 4, 15⟩ "6 months" s).periodStart =
        ⟨2023, 11, 1⟩ ∧
      (handlePeriodDurationChange ⟨2024, 4, 15⟩ "6 months" s).periodEnd =
        ⟨2024, 4, 31⟩) := by
  refine ⟨⟨?_, ?_, ?_, ?_⟩, ⟨?_, ?_, ?_, ?_⟩, ⟨?_, ?_, ?_, ?_⟩,
    ⟨?_, ?_, ?_, ?_⟩, ?_, ?_⟩ <;>
    simp only [hpdc_one_month, hpdc_three_months, hpdc_six_months,
      hpdc_one_year, monthIdx_startOfMonth, monthIdx_subMonths,
      day_startOfMonth, endOfMonth] <;>
    first
    | rfl
    | omega

/-- C3: every preset label resolves to a from/to pair anchored at the
current moment by its fixed rule — "Current and previous 3 months" gives
the first day of the month three months back through the last day of the
current month, "This month" the current month's boundaries, "This calendar
quarter" the quarter's boundaries, "This calendar quarter to date" the
quarter start through now, "This calendar year" (and "by month") the
year's boundaries, "Calendar year to last month" January 1 through the
last day of the previous month — every label without a rule falls back to
the current-month range, and with now = 2024-05-15 the preset "This
calendar quarter to date" yields 2024-04-01 .. 2024-05-15. -/
theorem preset_rules (now : CivilDate) (s : DSState) :
    (monthIdx (handleFormatSelect now "Current and previous 3 months"
          s).periodStart = monthIdx now - 3 ∧
      (handleFormatSelect now "Current and previous 3 months"
          s).periodStart.day = 1 ∧
      (handleFormatSelect now "Current and previous 3 months" s).periodEnd =
        ⟨now.year, now.month, daysInMonth now.year now.month⟩) ∧
    ((handleFormatSelect now "This month" s).periodStart =
        ⟨now.year, now.month, 1⟩ ∧
      (handleFormatSelect now "This month" s).periodEnd =
        ⟨now.year, now.month, daysInMonth now.year now.month⟩) ∧
    ((handleFormatSelect now "This calendar quarter" s).periodStart =
        ⟨now.year, now.month / 3 * 3, 1⟩ ∧
      (handleFormatSelect now "This calendar quarter" s).periodEnd =
        ⟨now.year, now.month / 3 * 3 + 2,
         daysInMonth now.year (now.month / 3 * 3 + 2)⟩) ∧
    ((handleFormatSelect now "This calendar quarter to date" s).periodStart =
        ⟨now.year, now.month / 3 * 3, 1⟩ ∧
      (handleFormatSelect now "This calendar quarter to date" s).periodEnd =
        now) ∧
    ((handleFormatSelect now "This calendar year" s).periodStart =
        ⟨now.year, 0, 1⟩ ∧
      (handleFormatSelect now "This calendar year" s).periodEnd =
        ⟨now.year, 11, 31⟩) ∧
    ((handleFormatSelect now "This calendar year by month" s).periodStart =
        ⟨now.year, 0, 1⟩ ∧
      (handleFormatSelect now "This calendar year by month" s).periodEnd =
        ⟨now.year, 11, 31⟩) ∧
    ((handleFormatSelect now "Calendar year to last month" s).periodStart =
        ⟨now.year, 0, 1⟩ ∧
      monthIdx (handleFormatSelect now "Calendar year to last month"
          s).periodEnd = monthIdx now - 1 ∧
      (handleFormatSelect now "Calendar year to last month" s).periodEnd.day =
        daysInMonth
          (handleFormatSelect now "Calendar year to last month"
            s).periodEnd.year
          (handleFormatSelect now "Calendar year to last month"
            s).periodEnd.month) ∧
    (∀ fmt : String,
      fmt ∉ ["Current and previous 3 months", "This month",
        "This calendar quarter", "This calendar quarter to date",
        "This calendar year", "This calendar year by month",
        "Calendar year to last month"] →
      (handleFormatSelect now fmt s).periodStart =
        ⟨now.year, now.month, 1⟩ ∧
      (handleFormatSelect now fmt s).periodEnd =
        ⟨now.year, now.month, daysInMonth now.year now.month⟩ ∧
      (handleFormatSelect now fmt s).selectedFormat = some fmt) ∧
    ((handleFormatSelect ⟨2024, 4, 15⟩ "This calendar quarter to date"
        s).periodStart = ⟨2024, 3, 1⟩ ∧
      (handleFormatSelect ⟨2024, 4, 15⟩ "This calendar quarter to date"
        s).periodEnd = ⟨2024, 4, 15⟩) := by
  refine ⟨⟨?_, ?_, ?_⟩, ⟨?_, ?_⟩, ⟨?_, ?_⟩, ⟨?_, ?_⟩, ⟨?_, ?_⟩, ⟨?_, ?_⟩,
    ⟨?_, ?_, ?_⟩, ?_, ⟨?_, ?_⟩⟩ <;>
    first
    | (intro fmt hmem
       simp only [List.mem_cons, List.not_mem_nil, or_false, not_or] at hmem
       obtain ⟨h1, h2, h3, h4, h5, h6, h7⟩ := hmem
       simp only [handleFormatSelect, if_neg h1, if_neg h2, if_neg h3,
         if_neg h4, if_neg h5, if_neg h6, if_neg h7]
       refine ⟨?_, ?_, ?_⟩ <;> first | rfl | trivial)
    | (simp only [handleFormatSelect, String.reduceEq, reduceIte,
        monthIdx_startOfMonth, monthIdx_endOfMonth, monthIdx_subMonths] <;>
       rfl)

/-- Closed instance of `preset_rules`: a label absent from the resolver's
rule table resolves to the current-month range and is still recorded as
the selected label. -/
theorem preset_rules_witness :
    (handleFormatSelect ⟨2024, 4, 15⟩ "Unknown preset"
        (initialState ⟨2024, 4, 15⟩)).periodStart = ⟨2024, 4, 1⟩ ∧
    (handleFormatSelect ⟨2024, 4, 15⟩ "Unknown preset"
        (initialState ⟨2024, 4, 15⟩)).periodEnd = ⟨2024, 4, 31⟩ ∧
    (handleFormatSelect ⟨2024, 4, 15⟩ "Unknown preset"
        (initialState ⟨2024, 4, 15⟩)).selectedFormat =
      some "Unknown preset" := by
  have h := preset_rules ⟨2024, 4, 15⟩ (initialState ⟨2024, 4, 15⟩)
  have hfb := h.2.2.2.2.2.2.2.1 "Unknown preset" (by decide)
  exact ⟨by rw [hfb.1], by rw [hfb.2.1]; decide, hfb.2.2⟩

/-- C2: setting one boundary of the custom range normalizes the chosen
month/year to its calendar-month boundary and enforces ordering
asymmetrically: the edited boundary lands exactly on the chosen month
(start on its first day, end on its last day); setting the start to a
month strictly after the current end pulls the end to the last day of the
chosen month, otherwise the end does not move; setting the end to a month
strictly before the current start pulls the start to the first day of the
chosen month, otherwise the start does not move. -/
theorem month_year_select_clamp (s : DSState) (m : Nat) (y : Int)
    (hvs : ValidDate s.periodStart) (hve : ValidDate s.periodEnd)
    (hm : m < 12) (_hle : dateLePr s.periodStart s.periodEnd) :
    ((handleMonthYearSelect m y true s).periodStart = ⟨y, m, 1⟩ ∧
      (monthIdx s.periodEnd < y * 12 + m →
        (handleMonthYearSelect m y true s).periodEnd =
          ⟨y, m, daysInMonth y m⟩) ∧
      (y * 12 + m ≤ monthIdx s.periodEnd →
        (handleMonthYearSelect m y true s).periodEnd = s.periodEnd)) ∧
    ((handleMonthYearSelect m y false s).periodEnd =
        ⟨y, m, daysInMonth y m⟩ ∧
      (y * 12 + m < monthIdx s.periodStart →
        (handleMonthYearSelect m y false s).periodStart = ⟨y, m, 1⟩) ∧
      (monthIdx s.periodStart ≤ y * 12 + m →
        (handleMonthYearSelect m y false s).periodStart = s.periodStart)) := by
  have hnew : jsNewDateFirst y m = ⟨y, m, 1⟩ := dateOfMonthIdx_eq y m 1 hm
  have hidxS : monthIdx (⟨y, m, 1⟩ : CivilDate) = y * 12 + m := rfl
  constructor
  · refine ⟨?_, ?_, ?_⟩
    · simp only [handleMonthYearSelect, hnew, if_true]
      split_ifs <;> rfl
    · intro hlt
      have hcond : dateLtB s.periodEnd (startOfMonth ⟨y, m, 1⟩) = true :=
        dateLtB_true_of_lt _ _ (by
          simp only [monthIdx_startOfMonth, hidxS]; omega)
      simp only [handleMonthYearSelect, hnew, if_true, hcond]
      rfl
    · intro hge
      have hcond : dateLtB s.periodEnd (startOfMonth ⟨y, m, 1⟩) = false :=
        dateLtB_false_of _ _
          (by simp only [monthIdx_startOfMonth, hidxS]; omega)
          (fun _ => by
            simp only [day_startOfMonth]
            exact hve.2.1)
      simp only [handleMonthYearSelect, hnew, if_true, hcond]
      rfl
  · refine ⟨?_, ?_, ?_⟩
    · simp only [handleMonthYearSelect, hnew, Bool.false_eq_true, if_false]
      split_ifs <;> rfl
    · intro hlt
      have hcond : dateLtB (endOfMonth ⟨y, m, 1⟩) s.periodStart = true :=
        dateLtB_true_of_lt _ _ (by
          simp only [monthIdx_endOfMonth, hidxS]; omega)
      simp only [handleMonthYearSelect, hnew, Bool.false_eq_true, if_false,
        hcond]
      rfl
    · intro hge
      have hcond : dateLtB (endOfMonth ⟨y, m, 1⟩) s.periodStart = false :=
        dateLtB_false_of _ _
          (by simp only [monthIdx_endOfMonth, hidxS]; omega)
          (fun hq => by
            simp only [monthIdx_endOfMonth, hidxS] at hq
            have hym : s.periodStart.year = y ∧ s.periodStart.month = m := by
              have h1 := hvs.1
              unfold monthIdx at hq
              constructor <;> omega
            calc s.periodStart.day
                ≤ daysInMonth s.periodStart.year s.periodStart.month :=
                  hvs.2.2
              _ = (endOfMonth (⟨y, m, 1⟩ : CivilDate)).day := by
                  rw [hym.1, hym.2]; rfl)
      simp only [handleMonthYearSelect, hnew, Bool.false_eq_true, if_false,
        hcond]

/-- Closed instance of `month_year_select_clamp`: from the initial state at
2024-02-10 (range 2024-02-01 .. 2024-02-29), setting the start to June
2024 (a month strictly after the end) moves the start to 2024-06-01 and
pulls the end to 2024-06-30. -/
theorem month_year_select_clamp_witness :
    (handleMonthYearSelect 5 2024 true
        (initialState ⟨2024, 1, 10⟩)).periodStart = ⟨2024, 5, 1⟩ ∧
    (handleMonthYearSelect 5 2024 true
        (initialState ⟨2024, 1, 10⟩)).periodEnd = ⟨2024, 5, 30⟩ := by
  have h := month_year_select_clamp (initialState ⟨2024, 1, 10⟩) 5 2024
    (by decide) (by decide) (by decide) (by decide)
  refine ⟨h.1.1, ?_⟩
  rw [h.1.2.1 (by decide)]
  decide

/-- Day of a date built from a linear month index. -/
theorem day_dateOfMonthIdx (t : Int) (d : Nat) :
    (dateOfMonthIdx t d).day = d := rfl

/-- `differenceInCalendarMonths` is the difference of linear month
indices. -/
theorem diffCalendarMonths_eq (a b : CivilDate) :
    differenceInCalendarMonths a b = monthIdx a - monthIdx b := by
  simp only [differenceInCalendarMonths, monthIdx]
  ring

/-- After `setMonth`, the date either sits in the requested month with the
day kept, or (by day overflow) in the month after it. -/
theorem jsSetMonth_monthIdx_day (d : CivilDate) (m : Int) :
    (monthIdx (jsSetMonth d m) = d.year * 12 + m ∧
      (jsSetMonth d m).day = d.day) ∨
    monthIdx (jsSetMonth d m) = d.year * 12 + m + 1 := by
  simp only [jsSetMonth]
  split_ifs with h
  · left
    exact ⟨by simp only [monthIdx]; omega, rfl⟩
  · right
    rw [monthIdx_dateOfMonthIdx]

/-- The shifted left date of `differenceInMonths` never falls strictly
before the right date when the target month is at or after the right
date's month and the day comparison cannot flip it. -/
theorem compare_shifted_ne (l1 r : CivilDate) (kk : Int)
    (_h1 : 1 ≤ l1.day)
    (hidx : monthIdx r ≤ monthIdx l1 - kk)
    (hday : monthIdx l1 - kk = monthIdx r → r.day ≤ l1.day) :
    ¬ compareAsc (jsSetMonth l1 ((l1.month : Int) - kk)) r = -1 := by
  have hmi : l1.year * 12 + ((l1.month : Int) - kk) = monthIdx l1 - kk := by
    simp only [monthIdx]
    ring
  rcases jsSetMonth_monthIdx_day l1 ((l1.month : Int) - kk) with ⟨ha, hb⟩ | ha
  · rw [hmi] at ha
    refine compareAsc_ne_negOne _ _ (by omega) (fun hq => ?_)
    rw [hb]
    exact hday (by omega)
  · rw [hmi] at ha
    exact compareAsc_ne_negOne _ _ (by omega) (fun hq => by omega)

/-- Evaluation of date-fns `differenceInMonths` at an end-of-month left
date and a first-of-month right date exactly `k` calendar months earlier:
the result is `k`. -/
theorem differenceInMonths_eq_of_full (l r : CivilDate) (k : Nat)
    (hk : 1 ≤ k) (hcal : monthIdx l - monthIdx r = (k : Int))
    (hld : 28 ≤ l.day) (hrd : r.day = 1) :
    differenceInMonths l r = (k : Int) := by
  have hsign : compareAsc l r = 1 := compareAsc_eq_one l r (by omega)
  have hcal2 : differenceInCalendarMonths l r = (k : Int) := by
    rw [diffCalendarMonths_eq]
    omega
  simp only [differenceInMonths, hsign, hcal2, Int.natAbs_ofNat]
  rw [if_neg (by omega)]
  by_cases hFeb : l.month = 1 ∧ 27 < l.day
  · rw [if_pos hFeb]
    have hdim : daysInMonth l.year l.month ≤ 29 ∧
        28 ≤ daysInMonth l.year l.month := by
      rw [hFeb.1]
      constructor
      · simp only [daysInMonth]
        split_ifs <;> omega
      · exact daysInMonth_ge_28 _ _
    have hsd : jsSetDate l 30 =
        dateOfMonthIdx (monthIdx l + 1) (30 - daysInMonth l.year l.month) := by
      simp only [jsSetDate]
      rw [if_neg (by omega)]
    rw [hsd]
    have hne := compare_shifted_ne
      (dateOfMonthIdx (monthIdx l + 1) (30 - daysInMonth l.year l.month)) r
      (1 * (k : Int))
      (by rw [day_dateOfMonthIdx]; omega)
      (by rw [monthIdx_dateOfMonthIdx]; omega)
      (by rw [monthIdx_dateOfMonthIdx]; omega)
    rw [decide_eq_false hne, ite_self]
    simp
  · rw [if_neg hFeb]
    have hne := compare_shifted_ne l r (1 * (k : Int)) (by omega)
      (by omega) (fun _ => by omega)
    rw [decide_eq_false hne, ite_self]
    simp

/-- The whole-month difference across the default trailing window
(first day of the month k months back, through the last day of the
current month) is exactly k, for every current moment. -/
theorem differenceInMonths_trailing (now : CivilDate) (k : Nat)
    (hk : 1 ≤ k) :
    differenceInMonths (endOfMonth now)
      (startOfMonth (subMonths now (k : Int))) = (k : Int) :=
  differenceInMonths_eq_of_full _ _ k hk
    (by
      simp only [monthIdx_endOfMonth, monthIdx_startOfMonth,
        monthIdx_subMonths]
      omega)
    (daysInMonth_ge_28 _ _)
    rfl

/-- The whole-month difference between the boundaries of a single month is
zero. -/
theorem differenceInMonths_same_month (now : CivilDate) :
    differenceInMonths (endOfMonth now) (startOfMonth now) = 0 := by
  have h0 : differenceInCalendarMonths (endOfMonth now) (startOfMonth now) =
      0 := by
    rw [diffCalendarMonths_eq, monthIdx_endOfMonth, monthIdx_startOfMonth]
    ring
  simp only [differenceInMonths, h0]
  rw [if_pos (by simp)]

/-- C7: for every duration class and every current moment, the default
window installed by switching to that class satisfies the class's own
minimum-span check: the validator on the resulting state reports
isValid = true. -/
theorem default_window_passes_validator (now : CivilDate) (s : DSState) :
    (validationAfterDurationChange now "1 month" s).isValid = true ∧
    (validationAfterDurationChange now "3 months" s).isValid = true ∧
    (validationAfterDurationChange now "6 months" s).isValid = true ∧
    (validationAfterDurationChange now "1 year" s).isValid = true := by
  refine ⟨?_, ?_, ?_, ?_⟩
  · have h := differenceInMonths_same_month now
    simp only [validationAfterDurationChange, hpdc_one_month,
      dateRangeValidation, String.reduceEq, reduceIte, h]
    rw [if_neg (by omega)]
  · have h := differenceInMonths_trailing now 2 (by omega)
    norm_num at h
    simp only [validationAfterDurationChange, hpdc_three_months,
      dateRangeValidation, String.reduceEq, reduceIte, h]
    rw [if_neg (by omega)]
  · have h := differenceInMonths_trailing now 5 (by omega)
    norm_num at h
    simp only [validationAfterDurationChange, hpdc_six_months,
      dateRangeValidation, String.reduceEq, reduceIte, h]
    rw [if_neg (by omega)]
  · have h := differenceInMonths_trailing now 11 (by omega)
    norm_num at h
    simp only [validationAfterDurationChange, hpdc_one_year,
      dateRangeValidation, String.reduceEq, reduceIte, h]
    rw [if_neg (by omega)]

/-- Sufficient condition for timestamp order: earlier or equal month index,
with the day deciding ties. -/
theorem dateLePr_of_idx_day (a b : CivilDate)
    (hidx : monthIdx a ≤ monthIdx b)
    (hday : monthIdx a = monthIdx b → a.day ≤ b.day) :
    dateLePr a b := by
  unfold dateLePr
  by_cases h : monthIdx a = monthIdx b
  · exact Or.inr ⟨h, hday h⟩
  · exact Or.inl (by omega)

/-- C8 (amended): periodStart ≤ periodEnd is preserved by the custom
month/year clamp and by the duration-class switch for every current
moment, and by preset selection for every preset except "Calendar year to
last month" selected while the current month is January (see the
counterexample `range_invariant_cex`). -/
theorem range_invariant_amended :
    (∀ (s : DSState) (m : Nat) (y : Int) (b : Bool),
      dateLePr (handleMonthYearSelect m y b s).periodStart
        (handleMonthYearSelect m y b s).periodEnd) ∧
    (∀ (now : CivilDate) (dur : String) (s : DSState),
      dateLePr (handlePeriodDurationChange now dur s).periodStart
        (handlePeriodDurationChange now dur s).periodEnd) ∧
    (∀ (now : CivilDate) (fmt : String) (s : DSState), ValidDate now →
      (fmt = "Calendar year to last month" → 1 ≤ now.month) →
      dateLePr (handleFormatSelect now fmt s).periodStart
        (handleFormatSelect now fmt s).periodEnd) := by
  refine ⟨?_, ?_, ?_⟩
  · intro s m y b
    cases b
    · simp only [handleMonthYearSelect, Bool.false_eq_true, if_false]
      split_ifs with h
      · refine dateLePr_of_idx_day _ _ ?_ (fun _ => ?_)
        · simp only [monthIdx_startOfMonth, monthIdx_endOfMonth]
          omega
        · simp only [day_startOfMonth, day_endOfMonth]
          have := daysInMonth_ge_28 (jsNewDateFirst y m).year
            (jsNewDateFirst y m).month
          omega
      · exact dateLePr_of_not_lt _ _ (by simpa using h)
    · simp only [handleMonthYearSelect, if_true]
      split_ifs with h
      · refine dateLePr_of_idx_day _ _ ?_ (fun _ => ?_)
        · simp only [monthIdx_startOfMonth, monthIdx_endOfMonth]
          omega
        · simp only [day_startOfMonth, day_endOfMonth]
          have := daysInMonth_ge_28
            (startOfMonth (jsNewDateFirst y m)).year
            (startOfMonth (jsNewDateFirst y m)).month
          omega
      · exact dateLePr_of_not_lt _ _ (by simpa using h)
  · intro now dur s
    simp only [handlePeriodDurationChange]
    split_ifs <;>
      refine dateLePr_of_idx_day _ _ ?_ (fun _ => ?_) <;>
      simp only [monthIdx_startOfMonth, monthIdx_endOfMonth,
        monthIdx_subMonths, day_startOfMonth, day_endOfMonth] <;>
      have := daysInMonth_ge_28 now.year now.month <;>
      omega
  · intro now fmt s hv himpl
    simp only [handleFormatSelect]
    split_ifs with h1 h2 h3 h4 h5 h6 h7
    · refine dateLePr_of_idx_day _ _ ?_ (fun _ => ?_) <;>
        simp only [monthIdx_startOfMonth, monthIdx_endOfMonth,
          monthIdx_subMonths, day_startOfMonth, day_endOfMonth] <;>
        have := daysInMonth_ge_28 now.year now.month <;>
        omega
    · refine dateLePr_of_idx_day _ _ ?_ (fun _ => ?_) <;>
        simp only [monthIdx_startOfMonth, monthIdx_endOfMonth,
          day_startOfMonth, day_endOfMonth] <;>
        have := daysInMonth_ge_28 now.year now.month <;>
        omega
    · refine dateLePr_of_idx_day _ _ ?_ (fun _ => ?_) <;>
        simp only [startOfQuarter, endOfQuarter, monthIdx] <;>
        have := daysInMonth_ge_28 now.year (now.month / 3 * 3 + 2) <;>
        omega
    · refine dateLePr_of_idx_day _ _ ?_ (fun _ => ?_)
      · simp only [startOfQuarter, monthIdx]
        omega
      · simp only [startOfQuarter]
        have := hv.2.1
        omega
    · refine dateLePr_of_idx_day _ _ ?_ (fun _ => ?_) <;>
        simp only [startOfYear, endOfYear, monthIdx] <;>
        omega
    · refine dateLePr_of_idx_day _ _ ?_ (fun _ => ?_) <;>
        simp only [startOfYear, endOfYear, monthIdx] <;>
        omega
    · have hm1 : 1 ≤ now.month := himpl h7
      refine dateLePr_of_idx_day _ _ ?_ (fun _ => ?_)
      · rw [monthIdx_endOfMonth, monthIdx_subMonths]
        simp only [startOfYear, monthIdx]
        omega
      · simp only [startOfYear, day_endOfMonth]
        have := daysInMonth_ge_28 (subMonths now 1).year
          (subMonths now 1).month
        omega
    · refine dateLePr_of_idx_day _ _ ?_ (fun _ => ?_) <;>
        simp only [monthIdx_startOfMonth, monthIdx_endOfMonth,
          day_startOfMonth, day_endOfMonth] <;>
        have := daysInMonth_ge_28 now.year now.month <;>
        omega

/-- Counterexample to C8 as stated: from the initial state at 2024-01-15
(whose range 2024-01-01 .. 2024-01-31 satisfies periodStart ≤ periodEnd),
selecting the preset "Calendar year to last month" — with the current
moment still 2024-01-15 — produces periodStart = 2024-01-01 and
periodEnd = 2023-12-31, violating periodStart ≤ periodEnd. -/
theorem range_invariant_cex :
    dateLePr (initialState ⟨2024, 0, 15⟩).periodStart
      (initialState ⟨2024, 0, 15⟩).periodEnd ∧
    ¬ dateLePr
      (handleFormatSelect ⟨2024, 0, 15⟩ "Calendar year to last month"
        (initialState ⟨2024, 0, 15⟩)).periodStart
      (handleFormatSelect ⟨2024, 0, 15⟩ "Calendar year to last month"
        (initialState ⟨2024, 0, 15⟩)).periodEnd := by
  decide

/-- Closed instance of `range_invariant_amended`: each of its three parts
applied at concrete inputs, with all hypotheses discharged. -/
theorem range_invariant_amended_witness :
    dateLePr (handleMonthYearSelect 2 2024 true
        (initialState ⟨2024, 4, 15⟩)).periodStart
      (handleMonthYearSelect 2 2024 true
        (initialState ⟨2024, 4, 15⟩)).periodEnd ∧
    dateLePr (handlePeriodDurationChange ⟨2024, 4, 15⟩ "1 year"
        (initialState ⟨2024, 4, 15⟩)).periodStart
      (handlePeriodDurationChange ⟨2024, 4, 15⟩ "1 year"
        (initialState ⟨2024, 4, 15⟩)).periodEnd ∧
    dateLePr (handleFormatSelect ⟨2024, 4, 15⟩ "Calendar year to last month"
        (initialState ⟨2024, 4, 15⟩)).periodStart
      (handleFormatSelect ⟨2024, 4, 15⟩ "Calendar year to last month"
        (initialState ⟨2024, 4, 15⟩)).periodEnd :=
  ⟨range_invariant_amended.1 (initialState ⟨2024, 4, 15⟩) 2 2024 true,
   range_invariant_amended.2.1 ⟨2024, 4, 15⟩ "1 year"
     (initialState ⟨2024, 4, 15⟩),
   range_invariant_amended.2.2 ⟨2024, 4, 15⟩ "Calendar year to last month"
     (initialState ⟨2024, 4, 15⟩) (by decide) (fun _ => by decide)⟩
